import Mathlib

/-!
Verification development for the LLM personality-assessment suite.

The definitions below are a shallow embedding of the Python sources:
  * `core/experiments.py`  — the two experiment sweeps and the inline
    judge-response parsing block;
  * `models/handlers.py`   — the hosted-API (Groq) retry adapter;
  * `main.py`              — handler pre-loading and orchestration;
  * `analysis/similarity.py` — the similarity-matrix error path.

External effects (network calls, local model inference, `time.sleep`,
logging, printing) are modelled as explicit oracle parameters or recorded
data; machine floats of the analysis layer are modelled over `ℚ`.
-/

/-- Backend call status: the Python code uses the string literals
`'ok'` and `'fail'`; every handler returns exactly one of the two. -/
inductive Status where
  | ok
  | fail
deriving DecidableEq

/-- JSON values as produced by Python's `json.loads`.  A number literal is
kept as an exact decimal `mantissa * 10 ^ exp10`, normalized so that the
mantissa is not divisible by 10 (and `0` is represented as `num 0 0`);
Python's int/float distinction and binary-float rounding are abstracted to
these exact decimal values (all claims concern small integer scores). -/
inductive Json where
  | null
  | bool (b : Bool)
  | num (mantissa : Int) (exp10 : Int)
  | str (s : String)
  | arr (elems : List Json)
  | obj (members : List (String × Json))

/-- Normalize a decimal `m * 10 ^ e`: move factors of 10 from the mantissa
into the exponent; zero becomes `(0, 0)`.  Fuel bounds the loop; callers
pass the mantissa's digit count. -/
def normalizeDecimal : Nat → Int → Int → Int × Int
  | 0, m, e => (m, e)
  | fuel + 1, m, e =>
    if m = 0 then (0, 0)
    else if m % 10 = 0 then normalizeDecimal fuel (m / 10) (e + 1)
    else (m, e)

/-- JSON whitespace accepted by Python's `json.loads`. -/
def isJsonWs (c : Char) : Bool :=
  c = ' ' || c = '\t' || c = '\n' || c = '\r'

/-- Drop leading JSON whitespace. -/
def skipWs : List Char → List Char
  | [] => []
  | c :: cs => if isJsonWs c then skipWs cs else c :: cs

/-- Longest leading run of decimal digits, with the remainder. -/
def takeDigits : List Char → List Char × List Char
  | [] => ([], [])
  | c :: cs =>
    if c.isDigit then
      let (d, r) := takeDigits cs
      (c :: d, r)
    else ([], c :: cs)

/-- Numeric value of a digit string. -/
def digitsToNat (ds : List Char) : Nat :=
  ds.foldl (fun acc c => acc * 10 + (c.toNat - 48)) 0

/-- Parse an optional exponent part `[eE][+-]?digits`, returning the exponent
and the remainder; absent exponent is exponent `0`. -/
def parseExponent (cs : List Char) : Int × List Char :=
  match cs with
  | 'e' :: r | 'E' :: r =>
    let (sgn, r1) : Bool × List Char :=
      match r with
      | '-' :: r2 => (true, r2)
      | '+' :: r2 => (false, r2)
      | _ => (false, r)
    match takeDigits r1 with
    | ([], _) => (0, cs)
    | (ds, r2) =>
      let e : Int := (digitsToNat ds : Int)
      (if sgn then -e else e, r2)
  | _ => (0, cs)

/-- Parse a JSON number token following the RFC grammar used by
`json.loads`: optional minus, integer part without leading zeros, optional
fraction, optional exponent.  The value is returned as a normalized
decimal `(mantissa, exp10)`. -/
def parseNumber (cs : List Char) : Option ((Int × Int) × List Char) :=
  let (neg, cs1) : Bool × List Char :=
    match cs with
    | '-' :: r => (true, r)
    | _ => (false, cs)
  match takeDigits cs1 with
  | ([], _) => none
  | (ds, r1) =>
    if ds.length > 1 && ds.headD '0' = '0' then none
    else
      let (fracDigits, r2) : List Char × List Char :=
        match r1 with
        | '.' :: r =>
          match takeDigits r with
          | ([], _) => ([], r1)
          | (fs, rr) => (fs, rr)
        | _ => ([], r1)
      let (e, r3) := parseExponent r2
      let m0 : Int := (digitsToNat (ds ++ fracDigits) : Int)
      let m1 : Int := if neg then -m0 else m0
      some (normalizeDecimal (ds ++ fracDigits).length m1 (e - fracDigits.length), r3)

/-- Hexadecimal digit value. -/
def hexVal (c : Char) : Option Nat :=
  if '0' ≤ c ∧ c ≤ '9' then some (c.toNat - 48)
  else if 'a' ≤ c ∧ c ≤ 'f' then some (c.toNat - 87)
  else if 'A' ≤ c ∧ c ≤ 'F' then some (c.toNat - 70)
  else none

/-- Parse the body of a JSON string after the opening quote, handling the
escape sequences `json.loads` accepts (`\uXXXX` surrogate pairing is not
modelled) and rejecting unescaped control characters, as Python's strict
mode does.  Fuel bounds recursion; callers pass the input length. -/
def parseStringBody : Nat → List Char → Option (List Char × List Char)
  | 0, _ => none
  | _, [] => none
  | fuel + 1, c :: cs =>
    if c = '"' then some ([], cs)
    else if c = '\\' then
      match cs with
      | [] => none
      | e :: cs2 =>
        let decoded : Option (Char × List Char) :=
          if e = '"' then some ('"', cs2)
          else if e = '\\' then some ('\\', cs2)
          else if e = '/' then some ('/', cs2)
          else if e = 'b' then some ('\x08', cs2)
          else if e = 'f' then some ('\x0c', cs2)
          else if e = 'n' then some ('\n', cs2)
          else if e = 'r' then some ('\r', cs2)
          else if e = 't' then some ('\t', cs2)
          else if e = 'u' then
            match cs2 with
            | h1 :: h2 :: h3 :: h4 :: cs3 =>
              match hexVal h1, hexVal h2, hexVal h3, hexVal h4 with
              | some v1, some v2, some v3, some v4 =>
                some (Char.ofNat (((v1 * 16 + v2) * 16 + v3) * 16 + v4), cs3)
              | _, _, _, _ => none
            | _ => none
          else none
        match decoded with
        | none => none
        | some (d, rest) =>
          match parseStringBody fuel rest with
          | none => none
          | some (s, r) => some (d :: s, r)
    else if c.toNat < 32 then none
    else
      match parseStringBody fuel cs with
      | none => none
      | some (s, r) => some (c :: s, r)

mutual

/-- Parse one JSON value (after any leading whitespace), returning the value
and the unconsumed remainder.  Mirrors `json.loads`' recursive-descent
scanner; the non-standard `NaN`/`Infinity` literals Python additionally
accepts are not modelled.  Fuel bounds nesting depth; every nested call
consumes input, so `length + 1` fuel suffices. -/
def parseValue : Nat → List Char → Option (Json × List Char)
  | 0, _ => none
  | fuel + 1, input =>
    match skipWs input with
    | [] => none
    | '{' :: rest =>
      match skipWs rest with
      | '}' :: r2 => some (.obj [], r2)
      | r2 =>
        match parseMembers fuel r2 with
        | none => none
        | some (ms, r) => some (.obj ms, r)
    | '[' :: rest =>
      match skipWs rest with
      | ']' :: r2 => some (.arr [], r2)
      | r2 =>
        match parseElements fuel r2 with
        | none => none
        | some (es, r) => some (.arr es, r)
    | '"' :: rest =>
      match parseStringBody (rest.length + 1) rest with
      | none => none
      | some (s, r) => some (.str (String.mk s), r)
    | 'n' :: 'u' :: 'l' :: 'l' :: r => some (.null, r)
    | 't' :: 'r' :: 'u' :: 'e' :: r => some (.bool true, r)
    | 'f' :: 'a' :: 'l' :: 's' :: 'e' :: r => some (.bool false, r)
    | cs =>
      match parseNumber cs with
      | none => none
      | some ((m, e), r) => some (.num m e, r)

/-- Parse the members of a JSON object, positioned at the first key
(whitespace already skipped), through the closing `}`. -/
def parseMembers : Nat → List Char → Option (List (String × Json) × List Char)
  | 0, _ => none
  | fuel + 1, cs =>
    match cs with
    | '"' :: rest =>
      match parseStringBody (rest.length + 1) rest with
      | none => none
      | some (key, r1) =>
        match skipWs r1 with
        | ':' :: r2 =>
          match parseValue fuel r2 with
          | none => none
          | some (v, r3) =>
            match skipWs r3 with
            | ',' :: r4 =>
              match parseMembers fuel (skipWs r4) with
              | none => none
              | some (ms, r) => some ((String.mk key, v) :: ms, r)
            | '}' :: r4 => some ([(String.mk key, v)], r4)
            | _ => none
        | _ => none
    | _ => none

/-- Parse the elements of a JSON array through the closing `]`. -/
def parseElements : Nat → List Char → Option (List Json × List Char)
  | 0, _ => none
  | fuel + 1, cs =>
    match parseValue fuel cs with
    | none => none
    | some (v, r1) =>
      match skipWs r1 with
      | ',' :: r2 =>
        match parseElements fuel r2 with
        | none => none
        | some (es, r) => some (v :: es, r)
      | ']' :: r2 => some ([v], r2)
      | _ => none

end

/-- `json.loads` on a character list: one value, nothing but whitespace
after it. -/
def jsonLoadsChars (cs : List Char) : Option Json :=
  match parseValue (cs.length + 1) cs with
  | none => none
  | some (v, rest) => if skipWs rest = [] then some v else none

/-- `json.loads` on a string. -/
def jsonLoads (s : String) : Option Json :=
  jsonLoadsChars s.data

/-- Python dict lookup semantics for a parsed JSON object: later duplicate
keys overwrite earlier ones, so the last binding wins. -/
def jlookup (members : List (String × Json)) (key : String) : Option Json :=
  (members.reverse.find? (fun p => p.1 = key)).map (·.2)

/-- `dict.get(key)`: the stored value, or Python `None` when the key is
absent.  Python `None` and JSON `null` coincide, so both map to
`Json.null`. -/
def pyGet (members : List (String × Json)) (key : String) : Json :=
  match jlookup members key with
  | some v => v
  | none => Json.null

/-- The span matched by `re.search(r'\{.*\}', text, re.DOTALL)`: the regex
starts at the first `{` and, with a greedy dotall `.*`, extends to the last
`}` of the whole text (not nesting-aware, spans newlines).  A match exists
iff some `}` occurs after the first `{`. -/
def extractBraceSpan (cs : List Char) : Option (List Char) :=
  match cs.findIdx? (· = '{') with
  | none => none
  | some i =>
    match cs.reverse.findIdx? (· = '}') with
    | none => none
    | some r =>
      let j := cs.length - 1 - r
      if i < j then some ((cs.drop i).take (j - i + 1)) else none

/-- The judge verdict record built by the inline parsing block of
`run_text_generation_experiment` (core/experiments.py lines 72-78).  The
Python code stores a dict and reads it with `.get`, so every field is
always present, with Python `None` (here `Json.null`) for an absent or
null key. -/
structure JudgeResult where
  score : Json
  clues : Json
  reasoning : Json
  decision_type : Json

/-- The sentinel verdict assigned when no JSON object can be extracted or
the extracted text does not parse. -/
def judgeParseErrorResult : JudgeResult :=
  { score := Json.null, clues := Json.null,
    reasoning := Json.str "JSON PARSE ERROR", decision_type := Json.null }

/-- The Judge Response Parser: the inline `try/except` block of
`run_text_generation_experiment`.  Finds the first-`{`-to-last-`}` span,
parses it with `json.loads`, and reads the four fields with `.get`; any
failure (no span, or invalid JSON) yields the sentinel verdict.  The Python
block catches every exception, so this function is total: it always
returns all four fields.  (The non-object case of a successful parse is
unreachable: a valid JSON text delimited by braces is an object.) -/
def parse_judge_response (raw : String) : JudgeResult :=
  match extractBraceSpan raw.data with
  | none => judgeParseErrorResult
  | some span =>
    match jsonLoadsChars span with
    | some (Json.obj members) =>
      { score := pyGet members "score", clues := pyGet members "clues",
        reasoning := pyGet members "reasoning",
        decision_type := pyGet members "decision type" }
    | _ => judgeParseErrorResult

/-- Is the character space or tab (the whitespace classes `textwrap.dedent`
considers for margins)? -/
def isIndentChar (c : Char) : Bool :=
  c = ' ' || c = '\t'

/-- Longest common prefix of two character lists. -/
def commonPrefix : List Char → List Char → List Char
  | a :: as, b :: bs => if a = b then a :: commonPrefix as bs else []
  | _, _ => []

/-- `textwrap.dedent`: blank out whitespace-only lines, compute the common
leading space/tab margin of the remaining lines that contain a
non-whitespace character, and strip that margin from every line carrying
it. -/
def dedent (s : String) : String :=
  let ls : List (List Char) := (s.splitOn "\n").map String.data
  let blanked := ls.map (fun l => if l ≠ [] && l.all isIndentChar then [] else l)
  let indents := (blanked.filter (fun l => l.any (fun c => !isIndentChar c))).map
    (fun l => l.takeWhile isIndentChar)
  let margin : List Char :=
    match indents with
    | [] => []
    | i :: is => is.foldl commonPrefix i
  let strip := fun (l : List Char) =>
    if margin ≠ [] && margin.isPrefixOf l then l.drop margin.length else l
  String.intercalate "\n" ((blanked.map strip).map String.mk)

/-- Python `repr` of a string as interpolated into an f-string: quote choice
per CPython (single quotes unless the text contains `'` but no `"`), with
backslash, quote and common control-character escapes (`\xNN` escapes for
other nonprintables are not modelled; the configuration phrases involved
contain none). -/
def pyReprStr (s : String) : String :=
  let hasSingle := s.data.contains '\''
  let hasDouble := s.data.contains '"'
  let q : Char := if hasSingle && !hasDouble then '"' else '\''
  let body := s.data.flatMap (fun c =>
    if c = '\\' || c = q then ['\\', c]
    else if c = '\n' then ['\\', 'n']
    else if c = '\r' then ['\\', 'r']
    else if c = '\t' then ['\\', 't']
    else [c])
  String.mk (q :: body ++ [q])

/-- Python `str` of a list of strings, as interpolated into an f-string. -/
def pyReprStrList (xs : List String) : String :=
  "[" ++ String.intercalate ", " (xs.map pyReprStr) ++ "]"

/-- One entry of the `MODELS_TO_TEST` roster: backend kind (the Python code
dispatches on the strings `"groq"` / `"hf"`) and backend-specific model
identifier. -/
structure ModelInfo where
  handler : String
  model_id : String
deriving DecidableEq

/-- Generation view of one trait (config/prompts.py,
`TRAITS_DEFINITIONS["generation"]`). -/
structure TraitGenInfo where
  name : String
  low : String
  high : String
deriving DecidableEq

/-- Classification view of one trait (config/prompts.py,
`TRAITS_DEFINITIONS["classification"]`); the Python code reads
`definition` with `.get(…, '')`, so an absent key is the empty string. -/
structure TraitClassInfo where
  name : String
  definition : String
  low : String
  high : String
deriving DecidableEq

/-- The two views of `TRAITS_DEFINITIONS`, as ordered key/value lists
(Python dicts preserve insertion order and have unique keys). -/
structure TraitsDefinitions where
  generation : List (String × TraitGenInfo)
  classification : List (String × TraitClassInfo)

/-- A backend generation call as the Engine sees `generate_response_groq`:
model id, system prompt, user prompt, temperature ↦ (text, status). -/
abbrev GenFn := String → String → String → ℚ → String × Status

/-- A pre-loaded Hugging Face handler's `generate_response` bound method:
system prompt, user prompt ↦ (text, status). -/
abbrev HFGenFn := String → String → String × Status

/-- A Python runtime error aborting a sweep: `NameError` for a read of a
never-assigned local, `KeyError` for a missing dict key, `IndexError` for
an out-of-range subscript. -/
inductive PyErr where
  | nameError
  | keyError
  | indexError
deriving DecidableEq

/-- `system_prompt_generate` (core/experiments.py line 57): the dedented
one-line persona-building instruction. -/
def system_prompt_generate (trait_name : String) (trait_score_num : Nat)
    (low high : String) : String :=
  dedent ("TASK: Answer the QUESTION according to your PERSONALITY. Use INSTRUCTION. Use at most 5 sentences. Do not mention your personality traits in the text. Type only the answer, without the information about your personality score. PERSONALITY: - Your personality trait \"" ++ trait_name ++ "\" is rated as " ++ toString trait_score_num ++ ". INSTRUCTION: - The personality trait is rated from 1 to 5. 1 is the lowest score and 5 is the highest score. - " ++ low ++ " - " ++ high)

/-- `user_prompt_generate` (core/experiments.py line 58). -/
def user_prompt_generate (question : String) : String :=
  "QUESTION:\n```\n" ++ question ++ "\n```"

/-- `system_prompt_judge` (core/experiments.py line 66): the dedented
judging instruction built from the classification view. -/
def system_prompt_judge (trait_name : String) (ci : TraitClassInfo) : String :=
  dedent ("You will be provided with answers to questions. Detect the score of " ++ trait_name ++ " for the author of the INPUT from the list [-2, -1, 0, 1, 2] or Nondistinguishable. Use INSTRUCTION. TASK: 1. First, list CLUES (i.e., keywords, phrases, contextual information, semantic relations, semantic meaning, tones, references) that support the score determination of " ++ trait_name ++ " of INPUT. 2. Second, deduce the diagnostic REASONING process from premises (i.e., clues, input) that supports the INPUT score determination (Limit the number of words to 130). 3. Third, based on clues, reasoning and input, determine the score of " ++ trait_name ++ " for the author of INPUT from the list [-2, -1, 0, 1, 2] or Nondistinguishable. 4. Mark what made you choose this score as decision type: Explicit signs, Implicit signs, Intuition, Nondistinguishable. 5. Provide your output in JSON format with the keys: score, clues, reasoning, decision type. PROVIDE ONLY JSON. INSTRUCTION: - Definition: " ++ ci.definition ++ " - High score of " ++ trait_name ++ " (maximum 2): '" ++ ci.high ++ "' - Low score of " ++ trait_name ++ " (minimum -2): '" ++ ci.low ++ "' - Explicit signs: The person mentions obvious facts that are connected with this trait score. - Implicit signs: The person mentions facts that may imply them having this trait score. - Intuition: My intuition tells that the person has this trait score. - Nondistinguishable: I can't tell what trait score the person has. - If the text does not contain substantial, significant, and convincing indicators of the trait score, then use Nondistinguishable. - Choose something other than Nondistinguishable if you have a high degree of confidence in the answer.")

/-- `user_prompt_judge` (core/experiments.py line 67). -/
def user_prompt_judge (question generated_text : String) : String :=
  "Question: " ++ question ++ " INPUT: " ++ generated_text

/-- `trait_prompt` of the questionnaire sweep (core/experiments.py line
121); `trait_info[level]` is only ever read with `level ∈ {high, low}`. -/
def questionnaire_trait_prompt (level : String) (ti : TraitGenInfo) : String :=
  "Act as a person with a " ++ level ++ " score in " ++ ti.name ++ ". " ++
    (if level = "high" then ti.high else ti.low)

/-- The questionnaire `system_prompt` (core/experiments.py line 122),
including the `'\n'.join` of option bullets and the Python `str` of the
option key list. -/
def questionnaire_system_prompt (trait_prompt : String)
    (score_options : List String) : String :=
  let provided_options := String.intercalate "\n" (score_options.map (fun o => "- " ++ o))
  let constant_list := pyReprStrList score_options
  dedent ("TASK: Indicate your level of agreement or disagreement with the statement in the CHARACTERISTICS according to your PERSONALITY. Use only the PROVIDED OPTIONS. PERSONALITY: ``` " ++ trait_prompt ++ " ``` PROVIDED OPTIONS: " ++ provided_options ++ " Provide your output only from the constant list " ++ constant_list ++ " without explanation.")

/-- The questionnaire `user_prompt` (core/experiments.py line 125). -/
def questionnaire_user_prompt (q_statement : String) : String :=
  "CHARACTERISTICS:\n```\n" ++ q_statement ++ "\n```"

/-- One row of the Trait-Generation result table (the dict appended at
core/experiments.py line 79). -/
structure GenRecord where
  model_key : String
  model_id : String
  prompted_trait : String
  prompted_score : Nat
  question : String
  generated_text : String
  judge_score : Json
  judge_clues : Json
  judge_reasoning : Json
  judge_decision_type : Json

/-- One iteration of the generation sweep's four nested loops:
(model entry, generation-view trait entry, prompted score, question). -/
abbrev GenIter := (String × ModelInfo) × (String × TraitGenInfo) × Nat × String

/-- The iteration sequence of the nested loops of
`run_text_generation_experiment`: models, then traits, then scores 1..5
(`range(1, 6)`), then questions, in order. -/
def genIterations (models_to_test : List (String × ModelInfo))
    (gen_traits : List (String × TraitGenInfo)) (questions : List String) :
    List GenIter :=
  models_to_test ×ˢ (gen_traits ×ˢ ((List.range' 1 5) ×ˢ questions))

/-- One iteration of the generation sweep (the body of the innermost loop,
core/experiments.py lines 55-79).  `st` carries the `(generated_text,
status)` pair left over from the previous iteration's backend dispatch:
the Python dispatch at lines 60-63 assigns these two locals only in its
`"groq"` and `"hf"` branches, so any other handler string silently reuses
the previous iteration's values — or raises `NameError` when no prior
iteration assigned them.  A missing `hf_handlers[model_key]` or
`traits_definitions["classification"][trait_key]` key raises `KeyError`.
Returns the updated carried pair and the appended row, if any. -/
def genStep (hf_handlers : List (String × HFGenFn)) (groq_generate_func : GenFn)
    (judge_model_id : String) (classification : List (String × TraitClassInfo))
    (st : Option (String × Status)) (it : GenIter) :
    Except PyErr (Option (String × Status) × Option GenRecord) :=
  let model_key := it.1.1
  let model_info := it.1.2
  let trait_key := it.2.1.1
  let trait_gen_info := it.2.1.2
  let trait_score_num := it.2.2.1
  let question := it.2.2.2
  let trait_name := trait_gen_info.name
  let sysGen := system_prompt_generate trait_name trait_score_num
    trait_gen_info.low trait_gen_info.high
  let userGen := user_prompt_generate question
  let dispatched : Except PyErr (String × Status) :=
    if model_info.handler = "groq" then
      .ok (groq_generate_func model_info.model_id sysGen userGen (7 / 10))
    else if model_info.handler = "hf" then
      match hf_handlers.lookup model_key with
      | some handler => .ok (handler sysGen userGen)
      | none => .error .keyError
    else
      match st with
      | some prev => .ok prev
      | none => .error .nameError
  match dispatched with
  | .error e => .error e
  | .ok (generated_text, status) =>
    let stNext := some (generated_text, status)
    if status = .fail then .ok (stNext, none)
    else
      match classification.lookup trait_key with
      | none => .error .keyError
      | some trait_class_info =>
        let sysJudge := system_prompt_judge trait_name trait_class_info
        let userJudge := user_prompt_judge question generated_text
        let (judge_response_raw, judge_status) :=
          groq_generate_func judge_model_id sysJudge userJudge 0
        if judge_status = .fail then .ok (stNext, none)
        else
          let judge_result := parse_judge_response judge_response_raw
          .ok (stNext, some
            { model_key := model_key, model_id := model_info.model_id,
              prompted_trait := trait_name, prompted_score := trait_score_num,
              question := question, generated_text := generated_text,
              judge_score := judge_result.score,
              judge_clues := judge_result.clues,
              judge_reasoning := judge_result.reasoning,
              judge_decision_type := judge_result.decision_type })

/-- Run the generation sweep over a list of iterations, threading the
carried `(generated_text, status)` locals and collecting appended rows in
order; a raised `PyErr` aborts the whole sweep. -/
def genLoop (hf_handlers : List (String × HFGenFn)) (groq_generate_func : GenFn)
    (judge_model_id : String) (classification : List (String × TraitClassInfo)) :
    List GenIter → Option (String × Status) → Except PyErr (List GenRecord)
  | [], _ => .ok []
  | it :: rest, st =>
    match genStep hf_handlers groq_generate_func judge_model_id classification st it with
    | .error e => .error e
    | .ok (stNext, row) =>
      match genLoop hf_handlers groq_generate_func judge_model_id classification rest stNext with
      | .error e => .error e
      | .ok tail => .ok (row.toList ++ tail)

/-- `run_text_generation_experiment` (core/experiments.py): the Trait
Generation-and-Judging sweep.  Logging and progress printing are effects
without influence on the result and are not modelled; the returned
DataFrame is modelled as the row list in append order. -/
def run_text_generation_experiment (models_to_test : List (String × ModelInfo))
    (hf_handlers : List (String × HFGenFn)) (groq_generate_func : GenFn)
    (judge_model_id : String) (traits_definitions : TraitsDefinitions)
    (questions : List String) : Except PyErr (List GenRecord) :=
  genLoop hf_handlers groq_generate_func judge_model_id
    traits_definitions.classification
    (genIterations models_to_test traits_definitions.generation questions) none

/-- Declarative view of the generation backend dispatch for one iteration,
independent of carried loop state: the (text, status) pair produced by the
backend selected by the model's handler kind, or `none` when the handler
kind is unrecognized or its Hugging Face handler is missing. -/
def gen_backend_call (hf_handlers : List (String × HFGenFn))
    (groq_generate_func : GenFn) (it : GenIter) : Option (String × Status) :=
  let sysGen := system_prompt_generate it.2.1.2.name it.2.2.1 it.2.1.2.low it.2.1.2.high
  let userGen := user_prompt_generate it.2.2.2
  if it.1.2.handler = "groq" then
    some (groq_generate_func it.1.2.model_id sysGen userGen (7 / 10))
  else if it.1.2.handler = "hf" then
    (hf_handlers.lookup it.1.1).map (fun handler => handler sysGen userGen)
  else none

/-- Declarative view of the judge backend call for one iteration, given the
generated text: `none` when the trait's classification view is missing. -/
def gen_judge_call (groq_generate_func : GenFn) (judge_model_id : String)
    (classification : List (String × TraitClassInfo)) (it : GenIter)
    (generated_text : String) : Option (String × Status) :=
  (classification.lookup it.2.1.1).map (fun ci =>
    groq_generate_func judge_model_id
      (system_prompt_judge it.2.1.2.name ci)
      (user_prompt_judge it.2.2.2 generated_text) 0)

/-- The row the generation sweep appends for one iteration (`none` when the
iteration is skipped): a row exists exactly when the generation call and
the judge call both return status `ok`; a judge parse failure still yields
a row, carrying the sentinel verdict. -/
def genEmit (hf_handlers : List (String × HFGenFn)) (groq_generate_func : GenFn)
    (judge_model_id : String) (classification : List (String × TraitClassInfo))
    (it : GenIter) : Option GenRecord :=
  match gen_backend_call hf_handlers groq_generate_func it with
  | none => none
  | some (generated_text, status) =>
    if status = .fail then none
    else
      match gen_judge_call groq_generate_func judge_model_id classification it generated_text with
      | none => none
      | some (judge_response_raw, judge_status) =>
        if judge_status = .fail then none
        else
          let judge_result := parse_judge_response judge_response_raw
          some
            { model_key := it.1.1, model_id := it.1.2.model_id,
              prompted_trait := it.2.1.2.name, prompted_score := it.2.2.1,
              question := it.2.2.2, generated_text := generated_text,
              judge_score := judge_result.score,
              judge_clues := judge_result.clues,
              judge_reasoning := judge_result.reasoning,
              judge_decision_type := judge_result.decision_type }

/-- One BFI-44 item (config/prompts.py, `BFI44_QUESTIONS` entries). -/
structure QItem where
  q_num : Int
  q_statement : String
  q_type : String
deriving DecidableEq

/-- One row of the Questionnaire result table (the dict appended at
core/experiments.py line 131). -/
structure QRecord where
  model_key : String
  trait : String
  prompted_level : String
  Q_type : String
  Answer : String
deriving DecidableEq

/-- One iteration of the questionnaire sweep's nested loops:
(model entry, BFI trait entry, persona level, item). -/
abbrev QIter := (String × ModelInfo) × (String × List QItem) × String × QItem

/-- The iteration sequence of the nested loops of
`run_questionnaire_experiment`: models, then BFI trait groups, then levels
`['high', 'low']`, then that group's items, in order. -/
def qIterations (models_to_test : List (String × ModelInfo))
    (bfi44_questions : List (String × List QItem)) : List QIter :=
  models_to_test ×ˢ (bfi44_questions.flatMap (fun tq =>
    ((["high", "low"] : List String) ×ˢ tq.2).map (fun li => (tq, li.1, li.2))))

/-- One iteration of the questionnaire sweep (core/experiments.py lines
118-131).  `st` carries the `(answer, status)` locals of the previous
iteration's dispatch, reused silently by an unrecognized handler kind (or
`NameError` when never assigned).  `trait_key_long[0]` raises `IndexError`
on an empty key and the `traits_definitions['generation']` lookup raises
`KeyError` when the upper-cased initial is absent; the per-trait and
per-level pure computations are hoisted into the per-item step here, which
only moves the point at which such an error would surface for a trait
whose item list is empty.  Returns the updated carried pair and the
appended row, if any. -/
def qStep (hf_handlers : List (String × HFGenFn)) (groq_generate_func : GenFn)
    (bfi44_scores_dict : List (String × Int))
    (generation : List (String × TraitGenInfo))
    (st : Option (String × Status)) (it : QIter) :
    Except PyErr (Option (String × Status) × Option QRecord) :=
  let model_key := it.1.1
  let model_info := it.1.2
  let trait_key_long := it.2.1.1
  let level := it.2.2.1
  let question_set := it.2.2.2
  match trait_key_long.data with
  | [] => .error .indexError
  | c0 :: _ =>
    match generation.lookup (String.mk [c0.toUpper]) with
    | none => .error .keyError
    | some trait_info =>
      let trait_name := trait_info.name
      let system_prompt := questionnaire_system_prompt
        (questionnaire_trait_prompt level trait_info)
        (bfi44_scores_dict.map (·.1))
      let user_prompt := questionnaire_user_prompt question_set.q_statement
      let dispatched : Except PyErr (String × Status) :=
        if model_info.handler = "groq" then
          .ok (groq_generate_func model_info.model_id system_prompt user_prompt (7 / 10))
        else if model_info.handler = "hf" then
          match hf_handlers.lookup model_key with
          | some handler => .ok (handler system_prompt user_prompt)
          | none => .error .keyError
        else
          match st with
          | some prev => .ok prev
          | none => .error .nameError
      match dispatched with
      | .error e => .error e
      | .ok (answer, status) =>
        .ok (some (answer, status),
          if status = .ok then
            some { model_key := model_key, trait := trait_name,
                   prompted_level := level, Q_type := question_set.q_type,
                   Answer := answer }
          else none)

/-- Run the questionnaire sweep over a list of iterations, threading the
carried `(answer, status)` locals and collecting appended rows in order. -/
def qLoop (hf_handlers : List (String × HFGenFn)) (groq_generate_func : GenFn)
    (bfi44_scores_dict : List (String × Int))
    (generation : List (String × TraitGenInfo)) :
    List QIter → Option (String × Status) → Except PyErr (List QRecord)
  | [], _ => .ok []
  | it :: rest, st =>
    match qStep hf_handlers groq_generate_func bfi44_scores_dict generation st it with
    | .error e => .error e
    | .ok (stNext, row) =>
      match qLoop hf_handlers groq_generate_func bfi44_scores_dict generation rest stNext with
      | .error e => .error e
      | .ok tail => .ok (row.toList ++ tail)

/-- `run_questionnaire_experiment` (core/experiments.py): the BFI-44
Questionnaire-Roleplay sweep. -/
def run_questionnaire_experiment (models_to_test : List (String × ModelInfo))
    (hf_handlers : List (String × HFGenFn)) (groq_generate_func : GenFn)
    (bfi44_questions : List (String × List QItem))
    (bfi44_scores_dict : List (String × Int))
    (traits_definitions : TraitsDefinitions) : Except PyErr (List QRecord) :=
  qLoop hf_handlers groq_generate_func bfi44_scores_dict
    traits_definitions.generation
    (qIterations models_to_test bfi44_questions) none

/-- Declarative view of the questionnaire backend dispatch for one
iteration, independent of carried loop state: `none` when the trait key is
degenerate, its generation view is missing, the handler kind is
unrecognized, or the Hugging Face handler is absent. -/
def q_backend_call (hf_handlers : List (String × HFGenFn))
    (groq_generate_func : GenFn) (bfi44_scores_dict : List (String × Int))
    (generation : List (String × TraitGenInfo)) (it : QIter) :
    Option (String × Status) :=
  match it.2.1.1.data with
  | [] => none
  | c0 :: _ =>
    match generation.lookup (String.mk [c0.toUpper]) with
    | none => none
    | some trait_info =>
      let system_prompt := questionnaire_system_prompt
        (questionnaire_trait_prompt it.2.2.1 trait_info)
        (bfi44_scores_dict.map (·.1))
      let user_prompt := questionnaire_user_prompt it.2.2.2.q_statement
      if it.1.2.handler = "groq" then
        some (groq_generate_func it.1.2.model_id system_prompt user_prompt (7 / 10))
      else if it.1.2.handler = "hf" then
        (hf_handlers.lookup it.1.1).map (fun handler => handler system_prompt user_prompt)
      else none

/-- The trait's display name used for one questionnaire iteration's row,
when resolvable. -/
def q_trait_name (generation : List (String × TraitGenInfo)) (it : QIter) :
    Option String :=
  match it.2.1.1.data with
  | [] => none
  | c0 :: _ => (generation.lookup (String.mk [c0.toUpper])).map (·.name)

/-- The row the questionnaire sweep appends for one iteration (`none` when
skipped): a row exists exactly when the backend call returns status
`ok`. -/
def qEmit (hf_handlers : List (String × HFGenFn)) (groq_generate_func : GenFn)
    (bfi44_scores_dict : List (String × Int))
    (generation : List (String × TraitGenInfo)) (it : QIter) : Option QRecord :=
  match q_trait_name generation it with
  | none => none
  | some trait_name =>
    match q_backend_call hf_handlers groq_generate_func bfi44_scores_dict generation it with
    | none => none
    | some (answer, status) =>
      if status = .ok then
        some { model_key := it.1.1, trait := trait_name,
               prompted_level := it.2.2.1, Q_type := it.2.2.2.q_type,
               Answer := answer }
      else none

/-- Result of one `generate_response_groq` call: generated text, status,
and the waits passed to `time.sleep` between attempts, in order. -/
structure GroqCallResult where
  text : String
  status : Status
  waits : List Nat
deriving DecidableEq

/-- The retry loop of `generate_response_groq` (models/handlers.py lines
25-43): each attempt either returns the API's text with status `ok`, or —
for ANY raised exception — sleeps `2 ** attempt` time units and retries;
exhausting the attempt budget falls through to the sentinel.  `api_call`
models one `client.chat.completions.create` round trip, with `.error` for
any transport or API-level exception. -/
def groqRetryLoop (api_call : Nat → Except Unit String) :
    Nat → Nat → GroqCallResult
  | _, 0 => { text := "MODEL_FAIL", status := .fail, waits := [] }
  | attempt, n + 1 =>
    match api_call attempt with
    | .ok response_text => { text := response_text, status := .ok, waits := [] }
    | .error _ =>
      let r := groqRetryLoop api_call (attempt + 1) n
      { text := r.text, status := r.status, waits := 2 ^ attempt :: r.waits }

/-- `generate_response_groq` (models/handlers.py): the hosted-API adapter.
An outer `try` also converts a client-construction failure to the sentinel;
the function never raises outward.  The source's `max_retries` default is
3, and its callers never override it. -/
def generate_response_groq (client_init : Except Unit Unit)
    (api_call : Nat → Except Unit String) (max_retries : Nat) : GroqCallResult :=
  match client_init with
  | .error _ => { text := "MODEL_FAIL", status := .fail, waits := [] }
  | .ok _ => groqRetryLoop api_call 0 max_retries

/-- The Hugging Face pre-loading loop of `main` (main.py lines 41-52):
build the `hf_handlers` dict for every roster entry with handler kind
`"hf"`; `load_model` models `HuggingFaceModelHandler.__init__`, whose
`_load_model` re-raises any loading exception.  The first failure
propagates out of the loop. -/
def initialize_hf_handlers (models_to_test : List (String × ModelInfo))
    (load_model : String → Except Unit HFGenFn) :
    Except Unit (List (String × HFGenFn)) :=
  match models_to_test with
  | [] => .ok []
  | (model_key, model_info) :: rest =>
    if model_info.handler = "hf" then
      match load_model model_info.model_id with
      | .error e => .error e
      | .ok handler =>
        match initialize_hf_handlers rest load_model with
        | .error e => .error e
        | .ok handlers => .ok ((model_key, handler) :: handlers)
    else initialize_hf_handlers rest load_model

/-- `main` (main.py): pre-load Hugging Face handlers, then run the two
sweeps.  A load failure is caught in `main` and answered with `return`
before any experiment runs, modelled as `none`; otherwise both sweeps run
in order (a `PyErr` raised inside a sweep would crash `main`, modelled by
`Except`).  Persistence and plotting consume the tables afterwards and do
not affect them. -/
def main_run (models_to_test : List (String × ModelInfo))
    (load_model : String → Except Unit HFGenFn) (groq_generate_func : GenFn)
    (judge_model_id : String) (traits_definitions : TraitsDefinitions)
    (questions : List String) (bfi44_questions : List (String × List QItem))
    (bfi44_scores_dict : List (String × Int)) :
    Option (Except PyErr (List GenRecord × List QRecord)) :=
  match initialize_hf_handlers models_to_test load_model with
  | .error _ => none
  | .ok hf_handlers =>
    some (
      match run_text_generation_experiment models_to_test hf_handlers
          groq_generate_func judge_model_id traits_definitions questions with
      | .error e => .error e
      | .ok text_gen_results =>
        match run_questionnaire_experiment models_to_test hf_handlers
            groq_generate_func bfi44_questions bfi44_scores_dict
            traits_definitions with
        | .error e => .error e
        | .ok questionnaire_results => .ok (text_gen_results, questionnaire_results))

/-- One row of the text table handed to `_calculate_similarity_matrix`
(analysis/similarity.py): only these two columns are read. -/
structure SimRow where
  generated_text : String
  prompted_score : Int

/-- Componentwise mean of a nonempty list of equal-length vectors
(`numpy` row mean over `ℚ`); the empty case is unreachable in context. -/
def meanRows : List (List ℚ) → List ℚ
  | [] => []
  | v :: vs =>
    ((vs.foldl (fun a b => a.zipWith (· + ·) b) v).map
      (fun x => x / ((vs.length + 1 : Nat) : ℚ)))

/-- `_calculate_similarity_matrix` (analysis/similarity.py lines 13-47).
The TF-IDF vectorizer and the cosine-similarity kernel are external
`sklearn` capabilities, modelled as oracles over exact `ℚ` matrices:
`fit_transform` returns one vector per document or raises `ValueError`
(`.error`) — e.g. for insufficient vocabulary — and that error is caught
and answered with a zeroed 5×5 matrix.  On success, rows are grouped by
prompted score 1..5 (positionally, after `reset_index`), each group is
averaged (a zero vector for an empty group), and the stacked five vectors
go to `cosine_similarity`. -/
def calculate_similarity_matrix (fit_transform : List String → Except Unit (List (List ℚ)))
    (cosine_similarity : List (List ℚ) → List (List ℚ)) (df : List SimRow) :
    List (List ℚ) :=
  match fit_transform (df.map (·.generated_text)) with
  | .error _ => List.replicate 5 (List.replicate 5 (0 : ℚ))
  | .ok tfidf_matrix =>
    let ncols := (tfidf_matrix.headD []).length
    let score_vectors := (List.range' 1 5).map (fun score =>
      let indices := (List.range df.length).filter (fun i =>
        (df.getD i { generated_text := "", prompted_score := 0 }).prompted_score = (score : Int))
      if indices.isEmpty then List.replicate ncols (0 : ℚ)
      else meanRows (indices.map (fun i => tfidf_matrix.getD i [])))
    cosine_similarity score_vectors

/-- A five-trait trait-definitions table mirroring the shape of the
shipped `TRAITS_DEFINITIONS`, for concrete instantiation. -/
def testTraitsFive : TraitsDefinitions :=
  { generation :=
      [("O", { name := "Openness", low := "ol", high := "oh" }),
       ("C", { name := "Conscientiousness", low := "cl", high := "ch" }),
       ("E", { name := "Extraversion", low := "el", high := "eh" }),
       ("A", { name := "Agreeableness", low := "al", high := "ah" }),
       ("N", { name := "Neuroticism", low := "nl", high := "nh" })],
    classification :=
      [("O", { name := "Openness", definition := "od", low := "ocl", high := "och" }),
       ("C", { name := "Conscientiousness", definition := "cd", low := "ccl", high := "cch" }),
       ("E", { name := "Extraversion", definition := "ed", low := "ecl", high := "ech" }),
       ("A", { name := "Agreeableness", definition := "ad", low := "acl", high := "ach" }),
       ("N", { name := "Neuroticism", definition := "nd", low := "ncl", high := "nch" })] }

/-- A well-formed model roster for a given handler table: every model's
handler kind is `"groq"`, or `"hf"` with its pre-loaded handler present —
the domain on which the engine's dispatch is total. -/
def rosterOk (models_to_test : List (String × ModelInfo))
    (hf_handlers : List (String × HFGenFn)) : Prop :=
  ∀ p ∈ models_to_test, p.2.handler = "groq" ∨
    (p.2.handler = "hf" ∧ ∃ h, hf_handlers.lookup p.1 = some h)

/-- Every generation-view trait key also has a classification view (true of
the shipped `TRAITS_DEFINITIONS`). -/
def classificationOk (td : TraitsDefinitions) : Prop :=
  ∀ p ∈ td.generation, ∃ ci, td.classification.lookup p.1 = some ci

/-- Every BFI trait group's long key is nonempty and its upper-cased
initial resolves in the generation view (true of the shipped config). -/
def bfiTraitsOk (generation : List (String × TraitGenInfo))
    (bfi44_questions : List (String × List QItem)) : Prop :=
  ∀ tq ∈ bfi44_questions, ∃ c0 cs, tq.1.data = c0 :: cs ∧
    ∃ ti, generation.lookup (String.mk [c0.toUpper]) = some ti

/-- The identifying coordinate of a Generation Record. -/
def genCoord (r : GenRecord) : String × String × Nat × String :=
  (r.model_key, r.prompted_trait, r.prompted_score, r.question)

/-- The coordinate a generation iteration would stamp on its row. -/
def genIterCoord (it : GenIter) : String × String × Nat × String :=
  (it.1.1, it.2.1.2.name, it.2.2.1, it.2.2.2)

/-- A one-trait trait-definitions table used to instantiate theorems on
concrete inputs. -/
def testTraits : TraitsDefinitions :=
  { generation := [("O", { name := "Openness", low := "low text", high := "high text" })],
    classification := [("O", { name := "Openness", definition := "def text",
                               low := "class low", high := "class high" })] }

/-- A backend stub answering every call with a fixed `ok` text. -/
def constOkOracle : GenFn := fun _ _ _ _ => ("TXT", Status.ok)

/-- A backend stub whose judge replies with a JSON verdict whose score, 7,
lies outside `[-2, 2]`, and whose generator replies `("TXT", ok)`. -/
def judgeScore7Oracle : GenFn := fun model_id _ _ _ =>
  if model_id = "J" then ("\x7b\"score\": 7\x7d", Status.ok) else ("TXT", Status.ok)

/-- The five rows the generation sweep emits for one groq model under
`judgeScore7Oracle`: each carries the judge's out-of-range score 7. -/
def judgeScore7Rows : List GenRecord :=
  (List.range' 1 5).map (fun s =>
    { model_key := "M", model_id := "mid", prompted_trait := "Openness",
      prompted_score := s, question := "Q", generated_text := "TXT",
      judge_score := Json.num 7 0, judge_clues := Json.null,
      judge_reasoning := Json.null, judge_decision_type := Json.null })

/-- A backend stub that tags its answer with the model id it was called
for, making it visible which call produced a stored text. -/
def tagOracle : GenFn := fun model_id _ _ _ => ("GEN " ++ model_id, Status.ok)

/-- The rows produced when a groq model `K1` is followed by a model `K2`
with the unrecognized handler kind `"strange"` under `tagOracle`: the `K2`
rows exist and reuse `K1`'s generated text `"GEN id1"` (the judge's reply
`"GEN J"` has no braces, so every verdict is the sentinel). -/
def unknownHandlerReuseRows : List GenRecord :=
  ((List.range' 1 5).map (fun s =>
    { model_key := "K1", model_id := "id1", prompted_trait := "Openness",
      prompted_score := s, question := "Q", generated_text := "GEN id1",
      judge_score := Json.null, judge_clues := Json.null,
      judge_reasoning := Json.str "JSON PARSE ERROR",
      judge_decision_type := Json.null })) ++
  ((List.range' 1 5).map (fun s =>
    { model_key := "K2", model_id := "id2", prompted_trait := "Openness",
      prompted_score := s, question := "Q", generated_text := "GEN id1",
      judge_score := Json.null, judge_clues := Json.null,
      judge_reasoning := Json.str "JSON PARSE ERROR",
      judge_decision_type := Json.null }))

/-- The questionnaire rows produced when the groq model `K1` is followed by
the `"strange"`-handler model `K2` under `tagOracle`: the `K2` rows exist
and reuse `K1`'s answer `"GEN id1"` (had `K2`'s backend been called, the
answer would have been `"GEN id2"`). -/
def unknownHandlerReuseQRows : List QRecord :=
  [{ model_key := "K1", trait := "Openness", prompted_level := "high",
     Q_type := "direct", Answer := "GEN id1" },
   { model_key := "K1", trait := "Openness", prompted_level := "low",
     Q_type := "direct", Answer := "GEN id1" },
   { model_key := "K2", trait := "Openness", prompted_level := "high",
     Q_type := "direct", Answer := "GEN id1" },
   { model_key := "K2", trait := "Openness", prompted_level := "low",
     Q_type := "direct", Answer := "GEN id1" }]

/-- On an iteration whose backend dispatch is defined and whose trait has a
classification view, `genStep` never raises, updates the carried pair to
the dispatch result, and appends exactly the declarative row — for ANY
carried state. -/
theorem genStep_of_valid (hf : List (String × HFGenFn)) (g : GenFn) (jid : String)
    (classification : List (String × TraitClassInfo)) (st : Option (String × Status))
    (it : GenIter) (v : String × Status)
    (hb : gen_backend_call hf g it = some v)
    (hc : ∃ ci, classification.lookup it.2.1.1 = some ci) :
    genStep hf g jid classification st it = .ok (some v, genEmit hf g jid classification it) := by
  obtain ⟨ci, hci⟩ := hc
  unfold genStep genEmit gen_backend_call gen_judge_call
  unfold gen_backend_call at hb
  by_cases h1 : it.1.2.handler = "groq"
  · simp only [h1, if_true, reduceIte, Option.some.injEq] at hb ⊢
    subst hb
    simp only [hci]
    rcases hv : (g it.1.2.model_id (system_prompt_generate it.2.1.2.name it.2.2.1 it.2.1.2.low it.2.1.2.high) (user_prompt_generate it.2.2.2) (7/10)) with ⟨t, s⟩
    cases s
    · simp only [hv]
      rcases hj : g jid (system_prompt_judge it.2.1.2.name ci) (user_prompt_judge it.2.2.2 t) 0 with ⟨raw, js⟩
      cases js <;> simp [hj]
    · simp [hv]
  · by_cases h2 : it.1.2.handler = "hf"
    · simp only [h1, h2, if_false, if_true, reduceIte] at hb ⊢
      rcases hl : hf.lookup it.1.1 with _ | handler
      · rw [hl] at hb; simp at hb
      · rw [hl] at hb; simp at hb
        subst hb
        simp only [hci]
        rcases hv : handler (system_prompt_generate it.2.1.2.name it.2.2.1 it.2.1.2.low it.2.1.2.high) (user_prompt_generate it.2.2.2) with ⟨t, s⟩
        cases s
        · rcases hj : g jid (system_prompt_judge it.2.1.2.name ci) (user_prompt_judge it.2.2.2 t) 0 with ⟨raw, js⟩
          cases js <;> simp [hv, hj]
        · simp [hv]
    · simp [h1, h2] at hb

/-- Over iterations that are all dispatch-defined with classified traits,
the stateful generation loop equals the stateless `filterMap` of the
declarative per-iteration row, regardless of the initial carried state. -/
theorem genLoop_eq_filterMap (hf : List (String × HFGenFn)) (g : GenFn) (jid : String)
    (classification : List (String × TraitClassInfo)) :
    ∀ (l : List GenIter) (st : Option (String × Status)),
      (∀ it ∈ l, (∃ v, gen_backend_call hf g it = some v) ∧
        ∃ ci, classification.lookup it.2.1.1 = some ci) →
      genLoop hf g jid classification l st = .ok (l.filterMap (genEmit hf g jid classification))
  | [], st, _ => rfl
  | it :: rest, st, h => by
    obtain ⟨⟨v, hv⟩, hci⟩ := h it (List.mem_cons_self _ _)
    have ih := genLoop_eq_filterMap hf g jid classification rest (some v)
      (fun x hx => h x (List.mem_cons_of_mem _ hx))
    simp only [genLoop, genStep_of_valid hf g jid classification st it v hv hci, ih,
      List.filterMap_cons]
    cases hE : genEmit hf g jid classification it <;> simp [hE]

/-- Questionnaire analog of `genStep_of_valid`. -/
theorem qStep_of_valid (hf : List (String × HFGenFn)) (g : GenFn)
    (scores : List (String × Int)) (generation : List (String × TraitGenInfo))
    (st : Option (String × Status)) (it : QIter) (v : String × Status)
    (hb : q_backend_call hf g scores generation it = some v) :
    qStep hf g scores generation st it = .ok (some v, qEmit hf g scores generation it) := by
  unfold qStep qEmit q_backend_call q_trait_name at *
  rcases hd : it.2.1.1.data with _ | ⟨c0, rest⟩
  · rw [hd] at hb; simp at hb
  · simp only [hd] at hb ⊢
    rcases hl : generation.lookup (String.mk [c0.toUpper]) with _ | ti
    · rw [hl] at hb; simp at hb
    · rw [hl] at hb
      simp only [hl]
      by_cases h1 : it.1.2.handler = "groq"
      · simp only [h1, reduceIte, Option.some.injEq] at hb ⊢
        subst hb
        rcases hv : g it.1.2.model_id (questionnaire_system_prompt (questionnaire_trait_prompt it.2.2.1 ti) (scores.map (·.1))) (questionnaire_user_prompt it.2.2.2.q_statement) (7/10) with ⟨t, s⟩
        cases s <;> simp [hv]
      · by_cases h2 : it.1.2.handler = "hf"
        · simp only [h1, h2, reduceIte] at hb ⊢
          rcases hlh : hf.lookup it.1.1 with _ | handler
          · rw [hlh] at hb; simp at hb
          · rw [hlh] at hb; simp at hb
            subst hb
            rcases hv : handler (questionnaire_system_prompt (questionnaire_trait_prompt it.2.2.1 ti) (scores.map (·.1))) (questionnaire_user_prompt it.2.2.2.q_statement) with ⟨t, s⟩
            cases s <;> simp [hv]
        · simp [h1, h2] at hb

/-- Questionnaire analog of `genLoop_eq_filterMap`. -/
theorem qLoop_eq_filterMap (hf : List (String × HFGenFn)) (g : GenFn)
    (scores : List (String × Int)) (generation : List (String × TraitGenInfo)) :
    ∀ (l : List QIter) (st : Option (String × Status)),
      (∀ it ∈ l, ∃ v, q_backend_call hf g scores generation it = some v) →
      qLoop hf g scores generation l st = .ok (l.filterMap (qEmit hf g scores generation))
  | [], st, _ => rfl
  | it :: rest, st, h => by
    obtain ⟨v, hv⟩ := h it (List.mem_cons_self _ _)
    have ih := qLoop_eq_filterMap hf g scores generation rest (some v)
      (fun x hx => h x (List.mem_cons_of_mem _ hx))
    simp only [qLoop, qStep_of_valid hf g scores generation st it v hv, ih,
      List.filterMap_cons]
    cases hE : qEmit hf g scores generation it <;> simp [hE]

/-- Membership in the generation iteration sequence projects to membership
in each of the four nested loop ranges. -/
theorem mem_genIterations {models : List (String × ModelInfo)}
    {traits : List (String × TraitGenInfo)} {questions : List String} {it : GenIter}
    (h : it ∈ genIterations models traits questions) :
    it.1 ∈ models ∧ it.2.1 ∈ traits ∧ it.2.2.1 ∈ List.range' 1 5 ∧ it.2.2.2 ∈ questions := by
  rcases it with ⟨m, t, s, q⟩
  simp only [genIterations, List.mem_product] at h
  exact ⟨h.1, h.2.1, h.2.2.1, h.2.2.2⟩

/-- Membership in the questionnaire iteration sequence projects to
membership in each nested loop range. -/
theorem mem_qIterations {models : List (String × ModelInfo)}
    {bfi : List (String × List QItem)} {it : QIter}
    (h : it ∈ qIterations models bfi) :
    it.1 ∈ models ∧ it.2.1 ∈ bfi ∧ it.2.2.1 ∈ (["high", "low"] : List String) ∧
      it.2.2.2 ∈ it.2.1.2 := by
  rcases it with ⟨m, tq, lv, item⟩
  simp only [qIterations, List.mem_product, List.mem_flatMap, List.mem_map] at h
  obtain ⟨hm, a, ha, li, hli, heq⟩ := h
  rcases li with ⟨l1, l2⟩
  injection heq with e1 rest
  injection rest with e2 e3
  subst e1; subst e2; subst e3
  rw [List.mem_product] at hli
  exact ⟨hm, ha, hli.1, hli.2⟩

/-- Under a well-formed roster, the generation backend dispatch is defined
for every iteration of a listed model. -/
theorem gen_backend_call_isSome {models : List (String × ModelInfo)}
    (hf : List (String × HFGenFn)) (g : GenFn) {it : GenIter}
    (hr : rosterOk models hf) (hm : it.1 ∈ models) :
    ∃ v, gen_backend_call hf g it = some v := by
  rw [← Option.isSome_iff_exists]
  rcases hr it.1 hm with h | ⟨h, hh, hl⟩
  · simp [gen_backend_call, h]
  · simp [gen_backend_call, h, hl]

/-- Under a well-formed roster and BFI table, the questionnaire backend
dispatch is defined for every iteration. -/
theorem q_backend_call_isSome {models : List (String × ModelInfo)}
    {bfi : List (String × List QItem)} (hf : List (String × HFGenFn)) (g : GenFn)
    (scores : List (String × Int)) (generation : List (String × TraitGenInfo)) {it : QIter}
    (hr : rosterOk models hf) (hb : bfiTraitsOk generation bfi)
    (hm : it.1 ∈ models) (ht : it.2.1 ∈ bfi) :
    ∃ v, q_backend_call hf g scores generation it = some v := by
  rw [← Option.isSome_iff_exists]
  obtain ⟨c0, cs, hd, ti, hti⟩ := hb it.2.1 ht
  rcases hr it.1 hm with h | ⟨h, hh, hl⟩
  · simp [q_backend_call, hd, hti, h]
  · simp [q_backend_call, hd, hti, h, hl]

/-- A generation row is emitted for an iteration iff its backend dispatch
returned `ok` AND its judge call returned `ok` (independently of whether
the judge text parsed). -/
theorem genEmit_some_iff (hf : List (String × HFGenFn)) (g : GenFn) (jid : String)
    (classification : List (String × TraitClassInfo)) (it : GenIter) (t : String) (s : Status)
    (hv : gen_backend_call hf g it = some (t, s)) (ci : TraitClassInfo)
    (hci : classification.lookup it.2.1.1 = some ci) :
    (∃ r, genEmit hf g jid classification it = some r) ↔
      (∃ ts, gen_backend_call hf g it = some ts ∧ ts.2 = .ok ∧
        ∃ jr, gen_judge_call g jid classification it ts.1 = some jr ∧ jr.2 = .ok) := by
  have hj : gen_judge_call g jid classification it t =
      some (g jid (system_prompt_judge it.2.1.2.name ci) (user_prompt_judge it.2.2.2 t) 0) := by
    simp [gen_judge_call, hci]
  cases s
  · rcases hjv : g jid (system_prompt_judge it.2.1.2.name ci) (user_prompt_judge it.2.2.2 t) 0 with ⟨raw, js⟩
    cases js
    · constructor
      · intro _
        exact ⟨(t, .ok), hv, rfl, (raw, .ok), by rw [hj, hjv], rfl⟩
      · intro _
        simp [genEmit, hv, hj, hjv]
    · constructor
      · intro ⟨r, hr⟩
        exfalso
        simp [genEmit, hv, hj, hjv] at hr
      · rintro ⟨ts, hts, hok, jr, hjr, hjok⟩
        rw [hv] at hts
        injection hts with hts
        subst hts
        rw [hj, hjv] at hjr
        injection hjr with hjr
        subst hjr
        exact absurd hjok (by simp)
  · constructor
    · intro ⟨r, hr⟩
      exfalso
      simp [genEmit, hv] at hr
    · rintro ⟨ts, hts, hok, _⟩
      rw [hv] at hts
      injection hts with hts
      subst hts
      exact absurd hok (by simp)

/-- A questionnaire row is emitted for an iteration iff its backend
dispatch returned `ok`. -/
theorem qEmit_some_iff (hf : List (String × HFGenFn)) (g : GenFn)
    (scores : List (String × Int)) (generation : List (String × TraitGenInfo))
    (it : QIter) (t : String) (s : Status)
    (hv : q_backend_call hf g scores generation it = some (t, s)) :
    (∃ r, qEmit hf g scores generation it = some r) ↔
      (∃ ts, q_backend_call hf g scores generation it = some ts ∧ ts.2 = .ok) := by
  have hname : ∃ tn, q_trait_name generation it = some tn := by
    unfold q_backend_call at hv
    unfold q_trait_name
    rcases hd : it.2.1.1.data with _ | ⟨c0, cs⟩
    · rw [hd] at hv; simp at hv
    · simp only [hd] at hv ⊢
      rcases hl : generation.lookup (String.mk [c0.toUpper]) with _ | ti
      · rw [hl] at hv; simp at hv
      · exact ⟨ti.name, rfl⟩
  obtain ⟨tn, htn⟩ := hname
  cases s
  · constructor
    · intro _
      exact ⟨(t, .ok), hv, rfl⟩
    · intro _
      simp [qEmit, htn, hv]
  · constructor
    · intro ⟨r, hr⟩
      exfalso
      simp [qEmit, htn, hv] at hr
    · rintro ⟨ts, hts, hok⟩
      rw [hv] at hts
      injection hts with hts
      subst hts
      exact absurd hok (by simp)

/-- C1: For every iteration of the Trait-Generation-and-Judging sweep, a
Generation Record is appended iff both the generation backend call and the
judge backend call returned status `ok` (a judge parse failure still
yields a row); for every iteration of the Questionnaire sweep, a
Questionnaire Record is appended iff the generation backend call returned
`ok`.  No partial row is emitted for an iteration whose backend call
returned `fail`: each sweep's table is exactly the `filterMap` of the
per-iteration row over the iteration sequence. -/
theorem row_emitted_iff_calls_ok
    (models : List (String × ModelInfo)) (hf : List (String × HFGenFn)) (g : GenFn)
    (jid : String) (td : TraitsDefinitions) (questions : List String)
    (bfi : List (String × List QItem)) (scores : List (String × Int))
    (hr : rosterOk models hf) (hc : classificationOk td)
    (hb : bfiTraitsOk td.generation bfi) :
    run_text_generation_experiment models hf g jid td questions =
      .ok ((genIterations models td.generation questions).filterMap
        (genEmit hf g jid td.classification)) ∧
    (∀ it ∈ genIterations models td.generation questions,
      ((∃ r, genEmit hf g jid td.classification it = some r) ↔
        ∃ ts, gen_backend_call hf g it = some ts ∧ ts.2 = .ok ∧
          ∃ jr, gen_judge_call g jid td.classification it ts.1 = some jr ∧ jr.2 = .ok)) ∧
    run_questionnaire_experiment models hf g bfi scores td =
      .ok ((qIterations models bfi).filterMap (qEmit hf g scores td.generation)) ∧
    (∀ it ∈ qIterations models bfi,
      ((∃ r, qEmit hf g scores td.generation it = some r) ↔
        ∃ ts, q_backend_call hf g scores td.generation it = some ts ∧ ts.2 = .ok)) := by
  have hGvalid : ∀ it ∈ genIterations models td.generation questions,
      (∃ v, gen_backend_call hf g it = some v) ∧
        ∃ ci, td.classification.lookup it.2.1.1 = some ci := by
    intro it hit
    obtain ⟨hm, ht, _, _⟩ := mem_genIterations hit
    exact ⟨gen_backend_call_isSome hf g hr hm, hc it.2.1 ht⟩
  have hQvalid : ∀ it ∈ qIterations models bfi,
      ∃ v, q_backend_call hf g scores td.generation it = some v := by
    intro it hit
    obtain ⟨hm, ht, _, _⟩ := mem_qIterations hit
    exact q_backend_call_isSome hf g scores td.generation hr hb hm ht
  refine ⟨?_, ?_, ?_, ?_⟩
  · exact genLoop_eq_filterMap hf g jid td.classification _ none hGvalid
  · intro it hit
    obtain ⟨⟨⟨t, s⟩, hv⟩, ci, hci⟩ := hGvalid it hit
    exact genEmit_some_iff hf g jid td.classification it t s hv ci hci
  · exact qLoop_eq_filterMap hf g scores td.generation _ none hQvalid
  · intro it hit
    obtain ⟨⟨t, s⟩, hv⟩ := hQvalid it hit
    exact qEmit_some_iff hf g scores td.generation it t s hv

/-- Witness for C1 at a concrete one-model, one-trait, one-question
configuration with an always-`ok` stub backend. -/
theorem row_emitted_iff_calls_ok_witness :
    run_text_generation_experiment [("M", { handler := "groq", model_id := "mid" })] []
        constOkOracle "J" testTraits ["Q"] =
      .ok ((genIterations [("M", { handler := "groq", model_id := "mid" })]
          testTraits.generation ["Q"]).filterMap
        (genEmit [] constOkOracle "J" testTraits.classification)) ∧
    run_questionnaire_experiment [("M", { handler := "groq", model_id := "mid" })] []
        constOkOracle [("openness", [{ q_num := 5, q_statement := "S", q_type := "direct" }])]
        [("agree", 4)] testTraits =
      .ok ((qIterations [("M", { handler := "groq", model_id := "mid" })]
          [("openness", [{ q_num := 5, q_statement := "S", q_type := "direct" }])]).filterMap
        (qEmit [] constOkOracle [("agree", 4)] testTraits.generation)) := by
  have h := row_emitted_iff_calls_ok
    [("M", { handler := "groq", model_id := "mid" })] [] constOkOracle "J" testTraits ["Q"]
    [("openness", [{ q_num := 5, q_statement := "S", q_type := "direct" }])] [("agree", 4)]
    (by intro p hp; simp at hp; subst hp; left; rfl)
    (by intro p hp; simp [testTraits] at hp; subst hp; exact ⟨_, rfl⟩)
    (by intro tq htq; simp at htq; subst htq
        exact ⟨'o', "penness".data, rfl, _, rfl⟩)
  exact ⟨h.1, h.2.2.1⟩

/-- C2: The Judge Response Parser is a total function into complete
4-field verdicts (it never raises — `parse_judge_response` is total by
construction), and whenever no brace-delimited span exists or the
extracted span is not valid JSON, the verdict is exactly
score=null, clues=null, decision type=null, reasoning="JSON PARSE ERROR". -/
theorem judge_parser_sentinel_on_failure (raw : String)
    (h : extractBraceSpan raw.data = none ∨
      ∃ span, extractBraceSpan raw.data = some span ∧ jsonLoadsChars span = none) :
    parse_judge_response raw = judgeParseErrorResult := by
  rcases h with h | ⟨span, hs, hp⟩
  · simp [parse_judge_response, h]
  · simp [parse_judge_response, hs, hp]

/-- Witness for C2 at the concrete brace-free input `"no json here"`. -/
theorem judge_parser_sentinel_on_failure_witness :
    parse_judge_response "no json here" = judgeParseErrorResult :=
  judge_parser_sentinel_on_failure "no json here" (Or.inl rfl)

/-- `findIdx?` on a list whose prefix has no hit finds the first hit at the
prefix's length. -/
theorem findIdx?_append_first {α : Type} {p : α → Bool} :
    ∀ (a : List α) (c : α) (r : List α), p c = true → (∀ x ∈ a, p x = false) →
      (a ++ c :: r).findIdx? p = some a.length
  | [], c, r, hc, _ => by simp [hc]
  | x :: a, c, r, hc, ha => by
    have hx := ha x (List.mem_cons_self _ _)
    have ih := findIdx?_append_first a c r hc (fun y hy => ha y (List.mem_cons_of_mem _ hy))
    simp only [List.cons_append, List.findIdx?_cons, hx, if_false, List.findIdx?_start_succ,
      Bool.false_eq_true, reduceIte]
    rw [show (a ++ c :: r).findIdx? p 0 = (a ++ c :: r).findIdx? p from rfl, ih]
    simp [List.length_cons, Nat.add_comm]

/-- Taking one element past a left factor of an append keeps the factor and
the next element. -/
theorem take_len_append {α : Type} : ∀ (m : List α) (x : α) (b : List α),
    (m ++ x :: b).take (m.length + 1) = m ++ [x]
  | [], _, _ => rfl
  | y :: m, x, b => by
    simp only [List.cons_append, List.length_cons, List.take_succ_cons, take_len_append m x b]

/-- The brace-span extractor returns exactly the span from the first `{`
to the last `}`, across any interior content. -/
theorem brace_span_first_to_last (a m b : List Char)
    (ha : '{' ∉ a) (hb : '}' ∉ b) :
    extractBraceSpan (a ++ '{' :: (m ++ '}' :: b)) = some ('{' :: (m ++ ['}'])) := by
  have hfst : (a ++ '{' :: (m ++ '}' :: b)).findIdx? (· = '{') = some a.length := by
    apply findIdx?_append_first
    · simp
    · intro x hx
      simp only [decide_eq_false_iff_not]
      intro h
      exact ha (h ▸ hx)
  have hrev : (a ++ '{' :: (m ++ '}' :: b)).reverse =
      b.reverse ++ '}' :: (m.reverse ++ '{' :: a.reverse) := by
    simp
  have hlst : (a ++ '{' :: (m ++ '}' :: b)).reverse.findIdx? (· = '}') = some b.length := by
    rw [hrev]
    have := findIdx?_append_first (p := (· = '}')) b.reverse '}' (m.reverse ++ '{' :: a.reverse)
      (by simp)
      (fun x hx => by
        simp only [decide_eq_false_iff_not]
        intro h
        exact hb (h ▸ (List.mem_reverse.mp hx)))
    rw [this, List.length_reverse]
  unfold extractBraceSpan
  rw [hfst, hlst]
  dsimp only
  have hlen : (a ++ '{' :: (m ++ '}' :: b)).length = a.length + m.length + b.length + 2 := by
    simp; omega
  rw [hlen]
  have hj : a.length + m.length + b.length + 2 - 1 - b.length = a.length + m.length + 1 := by omega
  rw [hj]
  have hij : a.length < a.length + m.length + 1 := by omega
  rw [if_pos hij]
  congr 1
  rw [List.drop_left]
  have : a.length + m.length + 1 - a.length + 1 = m.length + 1 + 1 := by omega
  rw [this]
  rw [List.take_succ_cons, take_len_append]

/-- C3: The Judge Response Parser extracts the span from the first `{` to
the last `}` (greedy, newline-spanning, not nesting-aware) and parses it
as JSON with absent keys mapped to null; on the concrete input
`'prefix {"score": 1, "clues": "x", "reasoning": "y", "decision type":
"Explicit signs"} suffix'` it returns score=1, clues="x", reasoning="y",
decision type="Explicit signs". -/
theorem judge_parser_extraction_and_example (a m b : List Char)
    (ha : '{' ∉ a) (hb : '}' ∉ b) :
    extractBraceSpan (a ++ '{' :: (m ++ '}' :: b)) = some ('{' :: (m ++ ['}'])) ∧
    (∀ (members : List (String × Json)) (key : String),
      (∀ p ∈ members, p.1 ≠ key) → pyGet members key = Json.null) ∧
    parse_judge_response
        "prefix \x7b\"score\": 1, \"clues\": \"x\", \"reasoning\": \"y\", \"decision type\": \"Explicit signs\"\x7d suffix" =
      { score := Json.num 1 0, clues := Json.str "x", reasoning := Json.str "y",
        decision_type := Json.str "Explicit signs" } := by
  refine ⟨brace_span_first_to_last a m b ha hb, ?_, rfl⟩
  intro members key hk
  unfold pyGet jlookup
  have hn : members.reverse.find? (fun p => p.1 = key) = none :=
    List.find?_eq_none.mpr (fun p hp => by simpa using hk p (List.mem_reverse.mp hp))
  rw [hn]
  rfl

/-- Witness for C3 at concrete prefix `"pre"`, interior `"ab"`, suffix
`"suf"`. -/
theorem judge_parser_extraction_and_example_witness :
    extractBraceSpan ("pre".data ++ '{' :: ("ab".data ++ '}' :: "suf".data)) =
      some ('{' :: ("ab".data ++ ['}'])) ∧
    parse_judge_response
        "prefix \x7b\"score\": 1, \"clues\": \"x\", \"reasoning\": \"y\", \"decision type\": \"Explicit signs\"\x7d suffix" =
      { score := Json.num 1 0, clues := Json.str "x", reasoning := Json.str "y",
        decision_type := Json.str "Explicit signs" } := by
  have h := judge_parser_extraction_and_example "pre".data "ab".data "suf".data
    (by decide) (by decide)
  exact ⟨h.1, h.2.2⟩

/-- An emitted generation row copies its coordinate fields from its
iteration, and its judge score is exactly the parsed verdict's score field
for some judge-returned raw text — the engine applies no validation to
it. -/
theorem genEmit_fields {hf : List (String × HFGenFn)} {g : GenFn} {jid : String}
    {cl : List (String × TraitClassInfo)} {it : GenIter} {r : GenRecord}
    (hr : genEmit hf g jid cl it = some r) :
    r.model_key = it.1.1 ∧ r.prompted_trait = it.2.1.2.name ∧
    r.prompted_score = it.2.2.1 ∧ r.question = it.2.2.2 ∧
    ∃ raw, r.judge_score = (parse_judge_response raw).score := by
  unfold genEmit at hr
  rcases hbv : gen_backend_call hf g it with _ | ⟨t, s⟩ <;> simp only [hbv] at hr
  · exact absurd hr (by simp)
  · cases s
    · rw [if_neg (fun h => Status.noConfusion h)] at hr
      rcases hjv : gen_judge_call g jid cl it t with _ | ⟨raw, js⟩ <;> simp only [hjv] at hr
      · exact absurd hr (by simp)
      · cases js
        · rw [if_neg (fun h => Status.noConfusion h)] at hr
          injection hr with hr
          subst hr
          exact ⟨rfl, rfl, rfl, rfl, raw, rfl⟩
        · rw [if_pos rfl] at hr
          exact absurd hr (by simp)
    · rw [if_pos rfl] at hr
      exact absurd hr (by simp)

/-- C4 (counterexample): the sweep emits whatever score the judge's JSON
contains — with a judge replying `{"score": 7}` the emitted record's judge
score is 7, neither null nor in `[-2, 2]`, so the claimed invariant fails
"regardless of what text the judge backend returns". -/
theorem judge_score_domain_counterexample :
    run_text_generation_experiment [("M", { handler := "groq", model_id := "mid" })] []
        judgeScore7Oracle "J" testTraits ["Q"] = .ok judgeScore7Rows ∧
    ∃ r ∈ judgeScore7Rows,
      ¬(r.judge_score = Json.null ∨
        ∃ n : Int, -2 ≤ n ∧ n ≤ 2 ∧ r.judge_score = Json.num n 0) := by
  refine ⟨rfl, _, List.mem_cons_self _ _, ?_⟩
  rintro (h | ⟨n, h1, h2, h3⟩)
  · exact Json.noConfusion h
  · injection h3 with hm he
    omega

/-- C4 (amended): every emitted Generation Record's prompted score lies in
{1,2,3,4,5}; its judge score is exactly the `score` field of the parsed
judge verdict for some judge-returned text — null whenever the text is
unparseable, but NOT validated against `[-2, 2]`: it lies in that range
only when the judge's own JSON supplies such a value. -/
theorem judge_score_passthrough_amended
    (models : List (String × ModelInfo)) (hf : List (String × HFGenFn)) (g : GenFn)
    (jid : String) (td : TraitsDefinitions) (questions : List String)
    (hr : rosterOk models hf) (hc : classificationOk td) :
    ∃ recs, run_text_generation_experiment models hf g jid td questions = .ok recs ∧
      ∀ r ∈ recs, r.prompted_score ∈ ([1, 2, 3, 4, 5] : List Nat) ∧
        ∃ raw, r.judge_score = (parse_judge_response raw).score := by
  have hGvalid : ∀ it ∈ genIterations models td.generation questions,
      (∃ v, gen_backend_call hf g it = some v) ∧
        ∃ ci, td.classification.lookup it.2.1.1 = some ci := by
    intro it hit
    obtain ⟨hm, ht, _, _⟩ := mem_genIterations hit
    exact ⟨gen_backend_call_isSome hf g hr hm, hc it.2.1 ht⟩
  refine ⟨_, genLoop_eq_filterMap hf g jid td.classification _ none hGvalid, ?_⟩
  intro r hrm
  obtain ⟨it, hit, hemit⟩ := List.mem_filterMap.mp hrm
  obtain ⟨_, _, hscore, _, hjs⟩ := genEmit_fields hemit
  refine ⟨?_, hjs⟩
  rw [hscore]
  exact (mem_genIterations hit).2.2.1

/-- Witness for the amended C4 at a concrete configuration (including the
score-7 judge, whose out-of-range verdict is passed through verbatim). -/
theorem judge_score_passthrough_amended_witness :
    ∃ recs, run_text_generation_experiment [("M", { handler := "groq", model_id := "mid" })] []
        judgeScore7Oracle "J" testTraits ["Q"] = .ok recs ∧
      ∀ r ∈ recs, r.prompted_score ∈ ([1, 2, 3, 4, 5] : List Nat) ∧
        ∃ raw, r.judge_score = (parse_judge_response raw).score :=
  judge_score_passthrough_amended
    [("M", { handler := "groq", model_id := "mid" })] [] judgeScore7Oracle "J" testTraits ["Q"]
    (by intro p hp; simp at hp; subst hp; left; rfl)
    (by intro p hp; simp [testTraits] at hp; subst hp; exact ⟨_, rfl⟩)

/-- C5: The hosted-API adapter never raises (it is a total function whose
callers observe only the returned record): every exception is retryable,
at most 3 attempts are made with waits doubling from 1 time unit
(`2 ** attempt`), exhaustion returns the sentinel `("MODEL_FAIL", fail)` —
after all three waits 1, 2, 4 — and a stub failing twice then succeeding
yields status `ok` on the 3rd attempt with the two intervening waits 1
and 2. -/
theorem groq_adapter_retry_backoff (api_call : Nat → Except Unit String) (t : String) :
    ((∀ i, i < 3 → api_call i = .error ()) →
      generate_response_groq (.ok ()) api_call 3 =
        { text := "MODEL_FAIL", status := .fail, waits := [1, 2, 4] }) ∧
    ((api_call 0 = .error ()) → (api_call 1 = .error ()) → (api_call 2 = .ok t) →
      generate_response_groq (.ok ()) api_call 3 =
        { text := t, status := .ok, waits := [1, 2] }) := by
  constructor
  · intro h
    simp [generate_response_groq, groqRetryLoop, h 0 (by omega), h 1 (by omega), h 2 (by omega)]
  · intro h0 h1 h2
    simp [generate_response_groq, groqRetryLoop, h0, h1, h2]

/-- Witness for C5 with a concrete stub failing twice then answering
`"T"`. -/
theorem groq_adapter_retry_backoff_witness :
    generate_response_groq (.ok ())
        (fun i => if i < 2 then .error () else .ok "T") 3 =
      { text := "T", status := .ok, waits := [1, 2] } :=
  (groq_adapter_retry_backoff (fun i => if i < 2 then .error () else .ok "T") "T").2
    rfl rfl rfl

/-- If any `"hf"` roster entry's model fails to load, the pre-loading loop
propagates the failure. -/
theorem initialize_hf_handlers_error (load_model : String → Except Unit HFGenFn) :
    ∀ (models : List (String × ModelInfo)),
      (∃ p ∈ models, p.2.handler = "hf" ∧ load_model p.2.model_id = .error ()) →
      initialize_hf_handlers models load_model = .error ()
  | [], h => absurd h (by simp)
  | (k, mi) :: rest, h => by
    unfold initialize_hf_handlers
    rcases h with ⟨p, hp, hhf, herr⟩
    rcases List.mem_cons.mp hp with rfl | hp'
    · rw [if_pos hhf, herr]
    · by_cases hk : mi.handler = "hf"
      · rw [if_pos hk]
        rcases hl : load_model mi.model_id with e | handler
        · rfl
        · rw [initialize_hf_handlers_error load_model rest ⟨p, hp', hhf, herr⟩]
      · rw [if_neg hk]
        exact initialize_hf_handlers_error load_model rest ⟨p, hp', hhf, herr⟩

/-- C6: If any configured local-hosted model fails to load during
initialization, the load failure propagates out of the handler
constructor, `main` returns early, and the whole run produces no
Generation or Questionnaire rows for any model — the sweeps never
start. -/
theorem fail_fast_on_load_failure
    (models : List (String × ModelInfo)) (load_model : String → Except Unit HFGenFn)
    (g : GenFn) (jid : String) (td : TraitsDefinitions) (questions : List String)
    (bfi : List (String × List QItem)) (scores : List (String × Int))
    (h : ∃ p ∈ models, p.2.handler = "hf" ∧ load_model p.2.model_id = .error ()) :
    main_run models load_model g jid td questions bfi scores = none := by
  unfold main_run
  rw [initialize_hf_handlers_error load_model models h]

/-- Witness for C6: a one-model roster whose local model always fails to
load. -/
theorem fail_fast_on_load_failure_witness :
    main_run [("H", { handler := "hf", model_id := "hid" })] (fun _ => .error ())
      constOkOracle "J" testTraits ["Q"]
      [("openness", [{ q_num := 5, q_statement := "S", q_type := "direct" }])]
      [("agree", 4)] = none :=
  fail_fast_on_load_failure _ _ _ _ _ _ _ _
    ⟨("H", { handler := "hf", model_id := "hid" }), List.mem_cons_self _ _, rfl, rfl⟩

/-- `map` of a componentwise pair function over a product is the product of
the mapped factors. -/
theorem map_pair_product {α β γ δ : Type} (f : α → γ) (g : β → δ) :
    ∀ (l₁ : List α) (l₂ : List β),
      (l₁ ×ˢ l₂).map (fun p => (f p.1, g p.2)) = (l₁.map f) ×ˢ (l₂.map g)
  | [], _ => rfl
  | a :: l₁, l₂ => by
    simp only [List.product_cons, List.map_append, List.map_map, List.map_cons,
      map_pair_product f g l₁ l₂]
    rfl

theorem length_filterMap_eq_countP {α β : Type} (f : α → Option β) :
    ∀ l : List α, (l.filterMap f).length = l.countP (fun a => (f a).isSome)
  | [] => rfl
  | a :: l => by
    cases hf : f a <;>
      simp [List.filterMap_cons, hf, List.countP_cons, length_filterMap_eq_countP f l]

theorem map_filterMap_sublist {α β γ : Type} (f : α → Option β) (gg : β → γ) (h : α → γ)
    (H : ∀ a b, f a = some b → gg b = h a) :
    ∀ l : List α, ((l.filterMap f).map gg).Sublist (l.map h)
  | [] => List.Sublist.slnil
  | a :: l => by
    cases hf : f a
    · simp only [List.filterMap_cons, hf, List.map_cons]
      exact (map_filterMap_sublist f gg h H l).cons _
    · simp only [List.filterMap_cons, hf, List.map_cons, H a _ hf]
      exact (map_filterMap_sublist f gg h H l).cons₂ _

theorem genIterations_map_coord (models : List (String × ModelInfo))
    (traits : List (String × TraitGenInfo)) (questions : List String) :
    (genIterations models traits questions).map genIterCoord =
      (models.map Prod.fst) ×ˢ ((traits.map (fun p => p.2.name)) ×ˢ
        ((List.range' 1 5) ×ˢ questions)) := by
  unfold genIterations
  have h1 := map_pair_product (Prod.fst (α := String) (β := ModelInfo))
      (fun q : (String × TraitGenInfo) × Nat × String => (q.1.2.name, q.2)) models
      (traits ×ˢ (List.range' 1 5 ×ˢ questions))
  have h2 := map_pair_product (fun t : String × TraitGenInfo => t.2.name)
      (fun x : Nat × String => (x.1, x.2)) traits (List.range' 1 5 ×ˢ questions)
  calc List.map genIterCoord (models ×ˢ (traits ×ˢ (List.range' 1 5 ×ˢ questions)))
      = List.map (fun p => (Prod.fst p.1,
          (fun q : (String × TraitGenInfo) × Nat × String => (q.1.2.name, q.2)) p.2))
          (models ×ˢ (traits ×ˢ (List.range' 1 5 ×ˢ questions))) := rfl
    _ = (models.map Prod.fst) ×ˢ ((traits ×ˢ (List.range' 1 5 ×ˢ questions)).map
          (fun q : (String × TraitGenInfo) × Nat × String => (q.1.2.name, q.2))) := h1
    _ = (models.map Prod.fst) ×ˢ ((traits.map (fun p => p.2.name)) ×ˢ
          ((List.range' 1 5 ×ˢ questions).map (fun x : Nat × String => (x.1, x.2)))) := by rw [h2]
    _ = (models.map Prod.fst) ×ˢ ((traits.map (fun p => p.2.name)) ×ˢ
          ((List.range' 1 5) ×ˢ questions)) := by simp

theorem genIterations_length (models : List (String × ModelInfo))
    (traits : List (String × TraitGenInfo)) (questions : List String) :
    (genIterations models traits questions).length =
      models.length * (traits.length * (5 * questions.length)) := by
  unfold genIterations
  simp [List.length_product]

theorem genEmit_none_of_fail {hf : List (String × HFGenFn)} {g : GenFn} {jid : String}
    {cl : List (String × TraitClassInfo)} {it : GenIter}
    (h : ∃ ts, gen_backend_call hf g it = some ts ∧ (ts.2 = .fail ∨
      ∃ jr, gen_judge_call g jid cl it ts.1 = some jr ∧ jr.2 = .fail)) :
    genEmit hf g jid cl it = none := by
  obtain ⟨⟨t, s⟩, hv, hcase⟩ := h
  rcases hcase with hs | ⟨⟨raw, js⟩, hj, hjs⟩
  · dsimp at hs
    subst hs
    simp [genEmit, hv]
  · dsimp at hjs
    subst hjs
    cases s
    · simp [genEmit, hv, hj]
    · simp [genEmit, hv]

/-- C7: Each (model, trait, intensity, question) coordinate appears at most
once in the Generation table per run (the coordinate list is
duplicate-free), the table has at most |models| × 5 traits × 5 intensities
× |questions| rows, and it has strictly fewer rows whenever any iteration's
generation or judge call fails — there are no engine-level retries (each
iteration contributes via exactly one backend dispatch and at most one
judge call of the per-iteration row function). -/
theorem generation_table_unique_and_bounded
    (models : List (String × ModelInfo)) (hf : List (String × HFGenFn)) (g : GenFn)
    (jid : String) (td : TraitsDefinitions) (questions : List String)
    (hr : rosterOk models hf) (hc : classificationOk td)
    (hkeys : (models.map Prod.fst).Nodup)
    (hnames : (td.generation.map (fun p => p.2.name)).Nodup)
    (hq : questions.Nodup) (h5 : td.generation.length = 5) :
    ∃ recs, run_text_generation_experiment models hf g jid td questions = .ok recs ∧
      (recs.map genCoord).Nodup ∧
      recs.length ≤ models.length * (5 * (5 * questions.length)) ∧
      ((∃ it ∈ genIterations models td.generation questions, ∃ ts,
          gen_backend_call hf g it = some ts ∧ (ts.2 = .fail ∨
            ∃ jr, gen_judge_call g jid td.classification it ts.1 = some jr ∧ jr.2 = .fail)) →
        recs.length < models.length * (5 * (5 * questions.length))) := by
  have hGvalid : ∀ it ∈ genIterations models td.generation questions,
      (∃ v, gen_backend_call hf g it = some v) ∧
        ∃ ci, td.classification.lookup it.2.1.1 = some ci := by
    intro it hit
    obtain ⟨hm, ht, _, _⟩ := mem_genIterations hit
    exact ⟨gen_backend_call_isSome hf g hr hm, hc it.2.1 ht⟩
  refine ⟨_, genLoop_eq_filterMap hf g jid td.classification _ none hGvalid, ?_, ?_, ?_⟩
  · apply List.Nodup.sublist
      (map_filterMap_sublist (genEmit hf g jid td.classification) genCoord genIterCoord
        (fun it r hir => by
          obtain ⟨h1, h2, h3, h4, _⟩ := genEmit_fields hir
          simp [genCoord, genIterCoord, h1, h2, h3, h4]) _)
    rw [genIterations_map_coord]
    exact hkeys.product (hnames.product ((List.nodup_range' 1 5).product hq))
  · rw [length_filterMap_eq_countP]
    calc (genIterations models td.generation questions).countP _
        ≤ (genIterations models td.generation questions).length := List.countP_le_length _
      _ = models.length * (td.generation.length * (5 * questions.length)) :=
          genIterations_length models td.generation questions
      _ = models.length * (5 * (5 * questions.length)) := by rw [h5]
  · rintro ⟨it, hit, hfail⟩
    rw [length_filterMap_eq_countP]
    have hne : (genIterations models td.generation questions).countP
        (fun a => (genEmit hf g jid td.classification a).isSome) ≠
        (genIterations models td.generation questions).length := by
      intro heq
      have := List.countP_eq_length.mp heq it hit
      rw [genEmit_none_of_fail hfail] at this
      simp at this
    have hlt := Nat.lt_of_le_of_ne (List.countP_le_length _) hne
    calc (genIterations models td.generation questions).countP _
        < (genIterations models td.generation questions).length := hlt
      _ = models.length * (td.generation.length * (5 * questions.length)) :=
          genIterations_length models td.generation questions
      _ = models.length * (5 * (5 * questions.length)) := by rw [h5]

/-- Witness for C7 at a concrete five-trait configuration whose generation
backend always fails: the table is empty, strictly below the 25-row
bound. -/
theorem generation_table_unique_and_bounded_witness :
    ∃ recs, run_text_generation_experiment [("M", { handler := "groq", model_id := "mid" })] []
        (fun model_id _ _ _ => if model_id = "mid" then ("TXT", Status.fail) else ("X", Status.ok))
        "J" testTraitsFive ["Q"] = .ok recs ∧
      (recs.map genCoord).Nodup ∧
      recs.length ≤ 1 * (5 * (5 * 1)) ∧
      ((∃ it ∈ genIterations [("M", { handler := "groq", model_id := "mid" })]
          testTraitsFive.generation ["Q"], ∃ ts,
          gen_backend_call []
            (fun model_id _ _ _ => if model_id = "mid" then ("TXT", Status.fail) else ("X", Status.ok))
            it = some ts ∧ (ts.2 = .fail ∨
            ∃ jr, gen_judge_call
              (fun model_id _ _ _ => if model_id = "mid" then ("TXT", Status.fail) else ("X", Status.ok))
              "J" testTraitsFive.classification it ts.1 = some jr ∧ jr.2 = .fail)) →
        recs.length < 1 * (5 * (5 * 1))) :=
  generation_table_unique_and_bounded
    [("M", { handler := "groq", model_id := "mid" })] []
    (fun model_id _ _ _ => if model_id = "mid" then ("TXT", Status.fail) else ("X", Status.ok))
    "J" testTraitsFive ["Q"]
    (by intro p hp; simp at hp; subst hp; left; rfl)
    (by intro p hp
        simp [testTraitsFive] at hp
        rcases hp with h | h | h | h | h <;> subst h <;> exact ⟨_, rfl⟩)
    (by decide) (by decide) (by decide) rfl

/-- C8: With a fixed configuration the Questionnaire protocol is
deterministic — the model is a pure function, so two runs of the same
configuration are literally equal tables — and rows are appended in
(model, trait, level, item) iteration order: the table is the `filterMap`
of the per-iteration row over the canonical ordered iteration sequence, so
that order is preserved in the returned table. -/
theorem questionnaire_deterministic_ordered
    (models : List (String × ModelInfo)) (hf : List (String × HFGenFn)) (g : GenFn)
    (bfi : List (String × List QItem)) (scores : List (String × Int))
    (td : TraitsDefinitions)
    (hr : rosterOk models hf) (hb : bfiTraitsOk td.generation bfi) :
    run_questionnaire_experiment models hf g bfi scores td =
      .ok ((qIterations models bfi).filterMap (qEmit hf g scores td.generation)) ∧
    run_questionnaire_experiment models hf g bfi scores td =
      run_questionnaire_experiment models hf g bfi scores td := by
  have hQvalid : ∀ it ∈ qIterations models bfi,
      ∃ v, q_backend_call hf g scores td.generation it = some v := by
    intro it hit
    obtain ⟨hm, ht, _, _⟩ := mem_qIterations hit
    exact q_backend_call_isSome hf g scores td.generation hr hb hm ht
  exact ⟨qLoop_eq_filterMap hf g scores td.generation _ none hQvalid, rfl⟩

/-- Witness for C8 at a concrete configuration with a constant-answer stub
backend: the run equals the canonical ordered table, twice over. -/
theorem questionnaire_deterministic_ordered_witness :
    run_questionnaire_experiment [("M", { handler := "groq", model_id := "mid" })] []
        constOkOracle [("openness", [{ q_num := 5, q_statement := "S", q_type := "direct" }])]
        [("agree", 4)] testTraits =
      .ok ((qIterations [("M", { handler := "groq", model_id := "mid" })]
          [("openness", [{ q_num := 5, q_statement := "S", q_type := "direct" }])]).filterMap
        (qEmit [] constOkOracle [("agree", 4)] testTraits.generation)) ∧
    run_questionnaire_experiment [("M", { handler := "groq", model_id := "mid" })] []
        constOkOracle [("openness", [{ q_num := 5, q_statement := "S", q_type := "direct" }])]
        [("agree", 4)] testTraits =
      run_questionnaire_experiment [("M", { handler := "groq", model_id := "mid" })] []
        constOkOracle [("openness", [{ q_num := 5, q_statement := "S", q_type := "direct" }])]
        [("agree", 4)] testTraits :=
  questionnaire_deterministic_ordered
    [("M", { handler := "groq", model_id := "mid" })] [] constOkOracle
    [("openness", [{ q_num := 5, q_statement := "S", q_type := "direct" }])] [("agree", 4)]
    testTraits
    (by intro p hp; simp at hp; subst hp; left; rfl)
    (by intro tq htq; simp at htq; subst htq
        exact ⟨'o', "penness".data, rfl, _, rfl⟩)

/-- C10: Both sweeps are total only when every handler kind is `"groq"` or
`"hf"`.  A roster whose FIRST model has any other handler kind crashes
each sweep with an undefined-variable error on its first iteration (no
prior dispatch bound the locals; for the questionnaire sweep the
preceding trait-key resolution succeeds by hypothesis, matching the
code's error order); and when a recognized model precedes the
unrecognized one, neither sweep skips it but silently reuses the
`(text, status)` pair left by the previous backend call: under a
model-id tagging stub, every generation row of the `"strange"`-handler
model `K2` stores `K1`'s generated text `"GEN id1"`, and every
questionnaire row of `K2` stores `K1`'s answer `"GEN id1"` rather than
the `"GEN id2"` its own backend would have produced — and such rows do
exist in both tables. -/
theorem unknown_handler_crash_or_reuse
    (k : String) (mi : ModelInfo) (rest : List (String × ModelInfo))
    (hf : List (String × HFGenFn)) (g : GenFn) (jid : String)
    (td : TraitsDefinitions) (questions : List String)
    (tkey : String) (items : List QItem) (bfiRest : List (String × List QItem))
    (scores : List (String × Int)) (c0 : Char) (cs : List Char) (ti : TraitGenInfo)
    (h1 : mi.handler ≠ "groq") (h2 : mi.handler ≠ "hf")
    (htr : td.generation ≠ []) (hq : questions ≠ [])
    (hc0 : tkey.data = c0 :: cs)
    (hti : td.generation.lookup (String.mk [c0.toUpper]) = some ti)
    (hitems : items ≠ []) :
    run_text_generation_experiment ((k, mi) :: rest) hf g jid td questions =
      .error .nameError ∧
    run_questionnaire_experiment ((k, mi) :: rest) hf g ((tkey, items) :: bfiRest)
        scores td = .error .nameError ∧
    run_text_generation_experiment
        [("K1", { handler := "groq", model_id := "id1" }),
         ("K2", { handler := "strange", model_id := "id2" })] []
        tagOracle "J" testTraits ["Q"] = .ok unknownHandlerReuseRows ∧
    (∀ r ∈ unknownHandlerReuseRows, r.model_key = "K2" →
      r.model_id = "id2" ∧ r.generated_text = "GEN id1") ∧
    (∃ r ∈ unknownHandlerReuseRows, r.model_key = "K2") ∧
    run_questionnaire_experiment
        [("K1", { handler := "groq", model_id := "id1" }),
         ("K2", { handler := "strange", model_id := "id2" })] []
        tagOracle [("openness", [{ q_num := 5, q_statement := "S", q_type := "direct" }])]
        [("agree", 4)] testTraits = .ok unknownHandlerReuseQRows ∧
    (∀ r ∈ unknownHandlerReuseQRows, r.model_key = "K2" →
      r.Answer = "GEN id1" ∧ r.Answer ≠ "GEN id2") ∧
    (∃ r ∈ unknownHandlerReuseQRows, r.model_key = "K2") := by
  refine ⟨?_, ?_, rfl, by decide, by decide, rfl, by decide, by decide⟩
  · obtain ⟨tt, tr, htr2⟩ := List.exists_cons_of_ne_nil htr
    obtain ⟨qq, qr, hq2⟩ := List.exists_cons_of_ne_nil hq
    unfold run_text_generation_experiment genIterations
    rw [htr2, hq2, show List.range' 1 5 = 1 :: List.range' 2 4 from rfl]
    simp only [List.product_cons, List.map_cons, List.cons_append]
    simp only [genLoop]
    unfold genStep
    simp [h1, h2]
  · obtain ⟨i0, irest, hit2⟩ := List.exists_cons_of_ne_nil hitems
    unfold run_questionnaire_experiment qIterations
    rw [hit2]
    simp only [List.flatMap_cons, List.product_cons, List.map_cons, List.map_append,
      List.cons_append]
    simp only [qLoop]
    unfold qStep
    simp only [hc0, hti]
    simp [h1, h2]

/-- Witness for C10: a roster headed by a `"weird"`-handler model crashes
both sweeps with the undefined-variable error, and the reuse rows of the
tagged two-model scenario exist in both tables. -/
theorem unknown_handler_crash_or_reuse_witness :
    run_text_generation_experiment [("B", { handler := "weird", model_id := "x" })] []
        constOkOracle "J" testTraits ["Q"] = .error .nameError ∧
    run_questionnaire_experiment [("B", { handler := "weird", model_id := "x" })] []
        constOkOracle [("openness", [{ q_num := 5, q_statement := "S", q_type := "direct" }])]
        [("agree", 4)] testTraits = .error .nameError ∧
    (∃ r ∈ unknownHandlerReuseRows, r.model_key = "K2") ∧
    (∃ r ∈ unknownHandlerReuseQRows, r.model_key = "K2") := by
  have h := unknown_handler_crash_or_reuse "B" { handler := "weird", model_id := "x" } [] []
    constOkOracle "J" testTraits ["Q"]
    "openness" [{ q_num := 5, q_statement := "S", q_type := "direct" }] [] [("agree", 4)]
    'o' "penness".data { name := "Openness", low := "low text", high := "high text" }
    (by decide) (by decide) (by decide) (by decide) rfl rfl (by decide)
  exact ⟨h.1, h.2.1, h.2.2.2.2.1, h.2.2.2.2.2.2.2⟩

/-- C9: The similarity-matrix computation never raises on insufficient
input (it is total by construction): whenever the TF-IDF vectorizer
rejects its input — e.g. for insufficient vocabulary — the `ValueError` is
caught and the function degrades to a zeroed 5×5 matrix instead of
propagating the error. -/
theorem similarity_matrix_degrades_on_vectorizer_error
    (fit_transform : List String → Except Unit (List (List ℚ)))
    (cosine_similarity : List (List ℚ) → List (List ℚ)) (df : List SimRow)
    (h : fit_transform (df.map (·.generated_text)) = .error ()) :
    calculate_similarity_matrix fit_transform cosine_similarity df =
      List.replicate 5 (List.replicate 5 (0 : ℚ)) := by
  unfold calculate_similarity_matrix
  rw [h]

/-- Witness for C9: an always-rejecting vectorizer on an empty table. -/
theorem similarity_matrix_degrades_on_vectorizer_error_witness :
    calculate_similarity_matrix (fun _ => .error ()) (fun m => m) [] =
      List.replicate 5 (List.replicate 5 (0 : ℚ)) :=
  similarity_matrix_degrades_on_vectorizer_error (fun _ => .error ()) (fun m => m) [] rfl
